import Mathlib

/-!
Verification of the feature-alignment and explanation pipeline of the
IDS_XAI backend (`src/backend/app.py`), shallowly embedded in Lean.

Modelling conventions:
* Python floats are embedded as rationals (`ℚ`); none of the verified
  properties depend on floating-point rounding, only on list manipulation,
  comparisons and absolute values.
* The final `np.array(...).reshape(1, -1)` conversion in
  `preprocess_features` is value-preserving and is modelled as the identity
  on the processed list.
* `raise`/`except` control flow is embedded with `Except String`: a raised
  exception is `Except.error s` where `s` is the string `str(e)` would
  produce.  A FastAPI `HTTPException(status, detail)` stringifies as
  `"{status}: {detail}"`, which matters because the `/predict` and
  `/upload-csv` handlers catch *all* exceptions (including `HTTPException`)
  in a trailing broad `except Exception` block.
* The XGBoost model and the SHAP explainer are opaque to this development;
  they are embedded as an oracle (`ModelOracle`) supplying a fallible
  prediction and a fallible attribution row, which is enough to settle the
  claims about alignment, ranking, response assembly, batch orchestration
  and error routing.
* `np.argsort` (default `kind='quicksort'`, which numpy does not guarantee
  to be stable) is modelled as a *stable* ascending sort of the indices —
  one concrete deterministic refinement of the unspecified tie behaviour.
  The claim theorems rely only on properties every correct ascending
  argsort shares (a permutation of the indices, weakly ascending values);
  the single concrete tie the development evaluates is a two-element
  array, a size at which numpy falls back to its (stable) insertion sort,
  so there the model's output is the program's.
-/

namespace IDSXAI

/-- `MODEL_EXPECTED_FEATURES = 78` (app.py line 88): the fixed input width
the model requires, called `EXPECTED_DIM` in the design document. -/
def MODEL_EXPECTED_FEATURES : Nat := 78

/-- The truncation / zero-padding step of `preprocess_features`
(app.py lines 168-179): keep the first `expected` entries when the input is
longer, append zeros when it is shorter, pass through when it matches. -/
def align_list (features : List ℚ) (expected : Nat) : List ℚ :=
  if features.length > expected then
    features.take expected
  else if features.length < expected then
    features ++ List.replicate (expected - features.length) 0
  else
    features

/-- `preprocess_features` (app.py lines 155-191): align the input to
`MODEL_EXPECTED_FEATURES` entries, then re-check the length and raise
`ValueError("Feature count mismatch: ...")` on a mismatch.  The trailing
numpy conversion is value-preserving and omitted. -/
def preprocess_features (features : List ℚ) : Except String (List ℚ) :=
  if (align_list features MODEL_EXPECTED_FEATURES).length ≠ MODEL_EXPECTED_FEATURES then
    Except.error ("Feature count mismatch: expected "
      ++ toString MODEL_EXPECTED_FEATURES ++ ", got "
      ++ toString (align_list features MODEL_EXPECTED_FEATURES).length)
  else
    Except.ok (align_list features MODEL_EXPECTED_FEATURES)

/-- The stable ascending order on indices used to model `np.argsort`:
index `i` comes before index `j` when its key is smaller, or the keys are
equal and `i ≤ j`. -/
def idx_le (key : Nat → ℚ) (i j : Nat) : Prop :=
  key i < key j ∨ (key i = key j ∧ i ≤ j)

instance (key : Nat → ℚ) (i j : Nat) : Decidable (idx_le key i j) :=
  inferInstanceAs (Decidable (key i < key j ∨ (key i = key j ∧ i ≤ j)))

/-- Insert an index into an ascending index list, keeping stability
(an incoming equal key goes after the ones already present when its index
is larger). -/
def idx_insert (key : Nat → ℚ) (i : Nat) : List Nat → List Nat
  | [] => [i]
  | j :: rest =>
    if idx_le key i j then i :: j :: rest else j :: idx_insert key i rest

/-- Insertion sort of an index list by `idx_le`. -/
def idx_sort (key : Nat → ℚ) : List Nat → List Nat
  | [] => []
  | i :: rest => idx_insert key i (idx_sort key rest)

/-- `np.argsort` on a vector, modelled as a stable ascending sort of
`0, ..., n-1` by value.  numpy's default sort is not guaranteed stable, so
the tie order fixed here is a model artifact; no claim theorem asserts a
tie order for the program beyond the two-element case, where numpy's
insertion-sort fallback makes the program agree with this model. -/
def argsort (xs : List ℚ) : List Nat :=
  idx_sort (fun i => xs.getD i 0) (List.range xs.length)

/-- The top-feature ranking of app.py lines 620 and 693:
`np.argsort(np.abs(shap_row))[::-1][:top_k]` — ascending argsort of the
absolute attributions, reversed, first `top_k` taken (the code passes
`top_k = 5`). -/
def rank_top_features (shap_row : List ℚ) (top_k : Nat) : List Nat :=
  ((argsort (shap_row.map (fun x => |x|))).reverse).take top_k

/-- The descending ranking order satisfied by the reversal of the *stable
model* of argsort: strictly larger absolute attribution first; on equal
absolute values the larger feature index first.  The tie clause is a model
artifact (numpy's unstable default sort does not guarantee it); it is used
only inside proofs, where it is immediately weakened to the tie-agnostic
weak descent that any correct argsort yields. -/
def desc_rank_order (xs : List ℚ) (i j : Nat) : Prop :=
  |xs.getD j 0| < |xs.getD i 0| ∨ (|xs.getD j 0| = |xs.getD i 0| ∧ j ≤ i)

/-- The ranking order the design document describes: descending absolute
value with ties broken by *lower* feature index first. -/
def spec_rank_order (xs : List ℚ) (i j : Nat) : Prop :=
  |xs.getD j 0| < |xs.getD i 0| ∨ (|xs.getD i 0| = |xs.getD j 0| ∧ i < j)

instance (xs : List ℚ) (i j : Nat) : Decidable (desc_rank_order xs i j) :=
  inferInstanceAs (Decidable (_ ∨ _))

instance (xs : List ℚ) (i j : Nat) : Decidable (spec_rank_order xs i j) :=
  inferInstanceAs (Decidable (_ ∨ _))

/-- `LABEL_MAPPING` default table (app.py lines 98-104), used when
`data/label_mapping.json` is absent; iteration order is insertion order. -/
def LABEL_MAPPING : List (String × ℤ) :=
  [("Benign", 0), ("Bot", 1), ("Brute Force -Web", 2), ("Brute Force -XSS", 3),
   ("DDOS attack-HOIC", 4), ("DDOS attack-LOIC-UDP", 5), ("DDoS attacks-LOIC-HTTP", 6),
   ("DoS attacks-GoldenEye", 7), ("DoS attacks-Hulk", 8), ("DoS attacks-SlowHTTPTest", 9),
   ("DoS attacks-Slowloris", 10), ("FTP-BruteForce", 11), ("Infilteration", 12),
   ("Label", 13), ("SQL Injection", 14), ("SSH-Bruteforce", 15)]

/-- The dict comprehension `{v: k for k, v in mapping.items()}` of
app.py line 107: entries are written in iteration order, so a later entry
with the same id overwrites an earlier one. -/
def dict_invert (pairs : List (String × ℤ)) : ℤ → Option String :=
  pairs.foldl (fun acc kv => fun q => if q = kv.2 then some kv.1 else acc q)
    (fun _ => none)

/-- `ATTACK_TYPES` (app.py line 107): reverse mapping class id → name. -/
def ATTACK_TYPES : ℤ → Option String :=
  dict_invert LABEL_MAPPING

/-- Return value of `get_attack_info` (app.py lines 109-120). -/
structure AttackInfo where
  attack_type : String
  is_vulnerable : Bool
  vulnerability_status : String
  prediction_number : ℤ
deriving DecidableEq

/-- `get_attack_info` (app.py lines 109-120): total lookup with an
`"Unknown (<id>)"` default, vulnerability flag `prediction != 0`. -/
def get_attack_info (prediction : ℤ) : AttackInfo :=
  let attack_type :=
    (ATTACK_TYPES prediction).getD ("Unknown (" ++ toString prediction ++ ")")
  let is_vulnerable := prediction != 0
  { attack_type := attack_type
    is_vulnerable := is_vulnerable
    vulnerability_status :=
      if is_vulnerable then "Attack Detected" else "Safe (Benign)"
    prediction_number := prediction }

/-- The fields of the `/predict` success payload that carry data
(app.py lines 632-643); the display-only `feature_names` dump is omitted. -/
structure PredictResponse where
  success : Bool
  prediction : ℤ
  attack_type : String
  is_vulnerable : Bool
  vulnerability_status : String
  top_features : List Nat
  shap_values : List ℚ
  features_used : Nat
  features_expected : Nat
deriving DecidableEq

/-- Assembly of the `/predict` result dictionary (app.py lines 632-643)
from the request features, the predicted class and the SHAP attribution
row: `top_features` is the ranking of the attributions, `shap_values` is
`shap_values[0].tolist()` — the whole attribution row. -/
def predict_result (features : List ℚ) (prediction : ℤ) (shap_row : List ℚ) :
    PredictResponse :=
  let attack_info := get_attack_info prediction
  { success := true
    prediction := prediction
    attack_type := attack_info.attack_type
    is_vulnerable := attack_info.is_vulnerable
    vulnerability_status := attack_info.vulnerability_status
    top_features := rank_top_features shap_row 5
    shap_values := shap_row
    features_used := features.length
    features_expected := MODEL_EXPECTED_FEATURES }

/-- Oracle for the opaque model and SHAP explainer: `model.predict` and
`explainer.shap_values` on an aligned row, each allowed to raise. -/
structure ModelOracle where
  predict : List ℚ → Except String ℤ
  shap : List ℚ → Except String (List ℚ)

/-- Outcome of an HTTP endpoint: a success payload or an
`HTTPException(status, detail)` surfaced to the client. -/
inductive ApiResult (α : Type) where
  | ok (value : α)
  | httpError (status : Nat) (detail : String)
deriving DecidableEq

/-- `str(HTTPException(status, detail))` as produced by Python:
`"{status}: {detail}"`. -/
def str_HTTPException (status : Nat) (detail : String) : String :=
  toString status ++ ": " ++ detail

/-- The `/predict` handler (app.py lines 589-651).  The `model is None`
check sits *before* the `try` block, so it surfaces directly as a 503.
Everything inside the `try` — including the explicit
`HTTPException(400, "Features array cannot be empty")` — is caught by the
trailing `except Exception` and re-raised as
`HTTPException(500, "Prediction failed: " + str(e))`. -/
def predict_endpoint (model : Option ModelOracle) (features : List ℚ) :
    ApiResult PredictResponse :=
  match model with
  | none => ApiResult.httpError 503 "ML model not available"
  | some m =>
    let body : Except String PredictResponse := do
      if features.isEmpty then
        throw (str_HTTPException 400 "Features array cannot be empty")
      let input_array ← preprocess_features features
      let prediction ← m.predict input_array
      let shap_row ← m.shap input_array
      pure (predict_result features prediction shap_row)
    match body with
    | Except.ok r => ApiResult.ok r
    | Except.error e => ApiResult.httpError 500 ("Prediction failed: " ++ e)

/-- One entry of the `/upload-csv` per-row results (app.py lines 695-712):
either the full prediction payload for the row or `{row, error}`. -/
structure RowPrediction where
  row : Nat
  prediction : ℤ
  attack_type : String
  is_vulnerable : Bool
  vulnerability_status : String
  top_features : List Nat
  shap_values : List ℚ
  features_used : Nat
  features_expected : Nat
deriving DecidableEq

inductive RowResult where
  | success (payload : RowPrediction)
  | failure (row : Nat) (message : String)
deriving DecidableEq

/-- The 1-indexed row number carried by a row result. -/
def RowResult.rowNum : RowResult → Nat
  | RowResult.success p => p.row
  | RowResult.failure n _ => n

def RowResult.isFailure : RowResult → Bool
  | RowResult.success _ => false
  | RowResult.failure _ _ => true

/-- The fallible part of the body of the row loop (app.py lines 677-693):
align the row, predict, compute the attribution row; any raise escapes to
the per-row `except`. -/
def row_pipeline (m : ModelOracle) (row : List ℚ) : Except String (ℤ × List ℚ) := do
  let input_array ← preprocess_features row
  let prediction ← m.predict input_array
  let shap_row ← m.shap input_array
  pure (prediction, shap_row)

/-- One iteration of the row loop of `upload_csv` (app.py lines 676-712)
for 0-based index `i`: on success append the full payload with
`row = i + 1`, on any exception append `{row: i + 1, error: "Prediction
failed: " + str(e)}` and continue. -/
def process_row (m : ModelOracle) (i : Nat) (row : List ℚ) : RowResult :=
  match row_pipeline m row with
  | Except.ok (prediction, shap_row) =>
    let attack_info := get_attack_info prediction
    RowResult.success
      { row := i + 1
        prediction := prediction
        attack_type := attack_info.attack_type
        is_vulnerable := attack_info.is_vulnerable
        vulnerability_status := attack_info.vulnerability_status
        top_features := rank_top_features shap_row 5
        shap_values := shap_row
        features_used := row.length
        features_expected := MODEL_EXPECTED_FEATURES }
  | Except.error e => RowResult.failure (i + 1) ("Prediction failed: " ++ e)

/-- `for i, row in enumerate(rows)` starting at index `start`. -/
def run_rows_from (m : ModelOracle) : Nat → List (List ℚ) → List RowResult
  | _, [] => []
  | i, row :: rest => process_row m i row :: run_rows_from m (i + 1) rest

/-- The whole row loop of `upload_csv` (app.py lines 673-712). -/
def run_rows (m : ModelOracle) (rows : List (List ℚ)) : List RowResult :=
  run_rows_from m 0 rows

/-- Output of `process_csv_data`'s successful parse (app.py lines 193-215). -/
structure CsvData where
  rows : List (List ℚ)
  feature_names : List String

/-- The `/upload-csv` success payload (app.py lines 714-722), minus the
display-only `feature_names` dump. -/
structure UploadResponse where
  success : Bool
  filename : String
  total_rows : Nat
  features_in_csv : Nat
  features_expected : Nat
  predictions : List RowResult

/-- Python `filename.endswith('.csv')` (app.py line 661). -/
def has_csv_ext (filename : String) : Bool :=
  decide (".csv".toList <:+ filename.toList)

/-- The `/upload-csv` handler (app.py lines 653-729).  As in `/predict`,
only the `model is None` check sits outside the `try`; the explicit
`HTTPException(400, "File must be a CSV file")` and the
`HTTPException(400, "CSV processing error: ...")` raised by
`process_csv_data` are both caught by the trailing `except Exception` and
re-raised as `HTTPException(500, "CSV processing failed: " + str(e))`.
The opaque pandas parse is the `parse` oracle: on failure it carries the
message `str(e)` of the underlying exception. -/
def upload_csv_endpoint (model : Option ModelOracle)
    (parse : String → Except String CsvData) (filename content : String) :
    ApiResult UploadResponse :=
  match model with
  | none => ApiResult.httpError 503 "ML model not available"
  | some m =>
    let body : Except String UploadResponse := do
      if !(has_csv_ext filename) then
        throw (str_HTTPException 400 "File must be a CSV file")
      let csv ← match parse content with
        | Except.ok d => pure d
        | Except.error e =>
          throw (str_HTTPException 400 ("CSV processing error: " ++ e))
      pure { success := true
             filename := filename
             total_rows := csv.rows.length
             features_in_csv := csv.feature_names.length
             features_expected := MODEL_EXPECTED_FEATURES
             predictions := run_rows m csv.rows }
    match body with
    | Except.ok r => ApiResult.ok r
    | Except.error e => ApiResult.httpError 500 ("CSV processing failed: " ++ e)

/-- A trivially succeeding model oracle, used to instantiate universally
quantified statements at a concrete input. -/
def demo_ok_oracle : ModelOracle :=
  { predict := fun _ => Except.ok 0
    shap := fun _ => Except.ok [0] }

/-- A model oracle that fails exactly on rows whose first feature is `2`,
used to exercise the per-row error isolation of the batch loop. -/
def demo_bad_row_oracle : ModelOracle :=
  { predict := fun arr => if arr.getD 0 0 = 2 then Except.error "bad row" else Except.ok 0
    shap := fun _ => Except.ok [0] }


/-! ### Order facts for the stable argsort model -/

theorem idx_le_total (key : Nat → ℚ) (i j : Nat) : idx_le key i j ∨ idx_le key j i := by
  rcases lt_trichotomy (key i) (key j) with h | h | h
  · exact Or.inl (Or.inl h)
  · rcases Nat.le_total i j with hn | hn
    · exact Or.inl (Or.inr ⟨h, hn⟩)
    · exact Or.inr (Or.inr ⟨h.symm, hn⟩)
  · exact Or.inr (Or.inl h)

theorem idx_le_trans (key : Nat → ℚ) {i j k : Nat}
    (hij : idx_le key i j) (hjk : idx_le key j k) : idx_le key i k := by
  rcases hij with h1 | ⟨h1, h1n⟩
  · rcases hjk with h2 | ⟨h2, _⟩
    · exact Or.inl (h1.trans h2)
    · exact Or.inl (lt_of_lt_of_eq h1 h2)
  · rcases hjk with h2 | ⟨h2, h2n⟩
    · exact Or.inl (lt_of_eq_of_lt h1 h2)
    · exact Or.inr ⟨h1.trans h2, h1n.trans h2n⟩

theorem idx_insert_perm (key : Nat → ℚ) (i : Nat) (l : List Nat) :
    (idx_insert key i l).Perm (i :: l) := by
  induction l with
  | nil => exact List.Perm.refl _
  | cons j rest ih =>
    unfold idx_insert
    split
    · exact List.Perm.refl _
    · exact (ih.cons j).trans (List.Perm.swap i j rest)

theorem mem_idx_insert (key : Nat → ℚ) (i x : Nat) (l : List Nat) :
    x ∈ idx_insert key i l ↔ x = i ∨ x ∈ l := by
  rw [(idx_insert_perm key i l).mem_iff]
  simp

theorem idx_insert_pairwise (key : Nat → ℚ) (i : Nat) {l : List Nat}
    (h : l.Pairwise (idx_le key)) :
    (idx_insert key i l).Pairwise (idx_le key) := by
  induction l with
  | nil => simp [idx_insert]
  | cons j rest ih =>
    rcases List.pairwise_cons.mp h with ⟨hj, hrest⟩
    unfold idx_insert
    split
    case isTrue hij =>
      refine List.pairwise_cons.mpr ⟨?_, h⟩
      intro x hx
      rcases List.mem_cons.mp hx with rfl | hx2
      · exact hij
      · exact idx_le_trans key hij (hj x hx2)
    case isFalse hij =>
      have hji : idx_le key j i := (idx_le_total key i j).resolve_left hij
      refine List.pairwise_cons.mpr ⟨?_, ih hrest⟩
      intro x hx
      rcases (mem_idx_insert key i x rest).mp hx with rfl | hx2
      · exact hji
      · exact hj x hx2

theorem idx_sort_perm (key : Nat → ℚ) (l : List Nat) :
    (idx_sort key l).Perm l := by
  induction l with
  | nil => exact List.Perm.refl _
  | cons i rest ih => exact (idx_insert_perm key i _).trans (ih.cons i)

theorem idx_sort_pairwise (key : Nat → ℚ) (l : List Nat) :
    (idx_sort key l).Pairwise (idx_le key) := by
  induction l with
  | nil => simp [idx_sort]
  | cons i rest ih => exact idx_insert_pairwise key i ih

theorem argsort_perm (xs : List ℚ) : (argsort xs).Perm (List.range xs.length) :=
  idx_sort_perm _ _

theorem argsort_pairwise (xs : List ℚ) :
    (argsort xs).Pairwise (idx_le (fun i => xs.getD i 0)) :=
  idx_sort_pairwise _ _

theorem getD_map_abs (xs : List ℚ) (i : Nat) :
    (xs.map (fun x => |x|)).getD i 0 = |xs.getD i 0| := by
  rcases Nat.lt_or_ge i xs.length with h | h
  · rw [List.getD_eq_getElem?_getD, List.getD_eq_getElem?_getD, List.getElem?_map,
      List.getElem?_eq_getElem h]
    simp
  · rw [List.getD_eq_default _ _ (by simpa using h), List.getD_eq_default _ _ h, abs_zero]

theorem rank_top_features_length (xs : List ℚ) (k : Nat) :
    (rank_top_features xs k).length = min k xs.length := by
  have hlen : (argsort (xs.map (fun x => |x|))).length = xs.length := by
    rw [(argsort_perm _).length_eq, List.length_range, List.length_map]
  simp [rank_top_features, List.length_take, hlen]

theorem mem_rank_top_features (xs : List ℚ) (k : Nat) {i : Nat}
    (h : i ∈ rank_top_features xs k) : i < xs.length := by
  have h1 : i ∈ (argsort (xs.map (fun x => |x|))).reverse :=
    (List.take_sublist k _).subset h
  have h2 : i ∈ argsort (xs.map (fun x => |x|)) := List.mem_reverse.mp h1
  have h3 : i ∈ List.range (xs.map (fun x => |x|)).length :=
    ((argsort_perm _).mem_iff).mp h2
  simpa using List.mem_range.mp h3

theorem rank_top_features_pairwise (xs : List ℚ) (k : Nat) :
    (rank_top_features xs k).Pairwise (desc_rank_order xs) := by
  have h1 := argsort_pairwise (xs.map (fun x => |x|))
  have h2 : ((argsort (xs.map (fun x => |x|))).reverse).Pairwise
      (fun i j => idx_le (fun t => (xs.map (fun x => |x|)).getD t 0) j i) :=
    List.pairwise_reverse.mpr h1
  have h3 : (rank_top_features xs k).Pairwise
      (fun i j => idx_le (fun t => (xs.map (fun x => |x|)).getD t 0) j i) :=
    List.Pairwise.sublist (List.take_sublist k _) h2
  refine h3.imp ?_
  intro a b hab
  have ha := getD_map_abs xs a
  have hb := getD_map_abs xs b
  unfold desc_rank_order
  rcases hab with hlt | ⟨heq, hn⟩
  · exact Or.inl (by simpa only [ha, hb] using hlt)
  · exact Or.inr ⟨by simpa only [ha, hb] using heq, hn⟩

theorem rank_top_features_nodup (xs : List ℚ) (k : Nat) :
    (rank_top_features xs k).Nodup := by
  have h1 : (argsort (xs.map (fun x => |x|))).Nodup :=
    ((argsort_perm _).nodup_iff).mpr (List.nodup_range _)
  exact List.Nodup.sublist (List.take_sublist k _) (List.nodup_reverse.mpr h1)


/-! ### Alignment lemmas -/

theorem align_list_length (v : List ℚ) (dim : Nat) :
    (align_list v dim).length = dim := by
  unfold align_list
  rcases Nat.lt_trichotomy dim v.length with h | h | h
  · rw [if_pos h, List.length_take]
    omega
  · rw [if_neg (by omega), if_neg (by omega)]
    omega
  · rw [if_neg (by omega), if_pos h, List.length_append, List.length_replicate]
    omega

theorem align_list_of_eq (v : List ℚ) (dim : Nat) (h : v.length = dim) :
    align_list v dim = v := by
  unfold align_list
  rw [if_neg (by omega), if_neg (by omega)]

theorem align_list_of_gt (v : List ℚ) (dim : Nat) (h : dim < v.length) :
    align_list v dim = v.take dim := by
  unfold align_list
  rw [if_pos h]

theorem align_list_of_lt (v : List ℚ) (dim : Nat) (h : v.length < dim) :
    align_list v dim = v ++ List.replicate (dim - v.length) 0 := by
  unfold align_list
  rw [if_neg (by omega), if_pos h]

theorem preprocess_features_ok (v : List ℚ) :
    preprocess_features v = Except.ok (align_list v MODEL_EXPECTED_FEATURES) := by
  have h : ¬ ((align_list v MODEL_EXPECTED_FEATURES).length ≠ MODEL_EXPECTED_FEATURES) := by
    simp [align_list_length]
  unfold preprocess_features
  rw [if_neg h]

/-! ### Reverse-mapping lemmas -/

theorem dict_invert_append_singleton (front : List (String × ℤ)) (kv : String × ℤ)
    (q : ℤ) :
    dict_invert (front ++ [kv]) q
      = if q = kv.2 then some kv.1 else dict_invert front q := by
  unfold dict_invert
  rw [List.foldl_append]
  rfl

theorem dict_invert_eq_find (pairs : List (String × ℤ)) (q : ℤ) :
    dict_invert pairs q
      = (pairs.reverse.find? (fun kv => kv.2 == q)).map Prod.fst := by
  induction pairs using List.reverseRecOn with
  | nil => rfl
  | append_singleton front kv ih =>
    rw [dict_invert_append_singleton, List.reverse_append, List.reverse_singleton,
      List.singleton_append]
    by_cases hq : q = kv.2
    · rw [if_pos hq, List.find?_cons_of_pos _ (by simp [hq])]
      rfl
    · rw [if_neg hq, List.find?_cons_of_neg _ ?_, ih]
      simp only [beq_iff_eq]
      exact fun hcontra => hq hcontra.symm

/-! ### Batch-loop lemmas -/

theorem run_rows_from_length (m : ModelOracle) (start : Nat) (rows : List (List ℚ)) :
    (run_rows_from m start rows).length = rows.length := by
  induction rows generalizing start with
  | nil => rfl
  | cons r rest ih => simp [run_rows_from, ih]

theorem run_rows_from_getD (m : ModelOracle) (start : Nat) (rows : List (List ℚ))
    (j : Nat) (h : j < rows.length) :
    (run_rows_from m start rows).getD j (RowResult.failure 0 "")
      = process_row m (start + j) (rows.getD j []) := by
  induction rows generalizing start j with
  | nil => simp at h
  | cons r rest ih =>
    cases j with
    | zero => simp [run_rows_from]
    | succ jj =>
      have hrec : run_rows_from m start (r :: rest)
          = process_row m start r :: run_rows_from m (start + 1) rest := rfl
      rw [hrec, List.getD_cons_succ, List.getD_cons_succ,
        ih (start + 1) jj (by simpa using h)]
      have harith : start + 1 + jj = start + (jj + 1) := by omega
      rw [harith]

theorem process_row_rowNum (m : ModelOracle) (i : Nat) (row : List ℚ) :
    (process_row m i row).rowNum = i + 1 := by
  cases hpipe : row_pipeline m row with
  | ok val =>
    obtain ⟨pred, srow⟩ := val
    simp [process_row, hpipe, RowResult.rowNum]
  | error e => simp [process_row, hpipe, RowResult.rowNum]

theorem process_row_of_error (m : ModelOracle) (i : Nat) (row : List ℚ) (e : String)
    (h : row_pipeline m row = Except.error e) :
    process_row m i row = RowResult.failure (i + 1) ("Prediction failed: " ++ e) := by
  simp [process_row, h]

/-! ### Claim theorems -/

/-- C1: for every non-empty input vector `v`, the alignment step of
`preprocess_features` returns a vector of length exactly
`MODEL_EXPECTED_FEATURES` that equals `v` when the length matches, the
first `MODEL_EXPECTED_FEATURES` entries of `v` when `v` is longer, and `v`
followed by zeros when `v` is shorter; `preprocess_features` wraps exactly
that list in a success value. -/
theorem claim_C1_align (v : List ℚ) (_hv : v ≠ []) :
    (align_list v MODEL_EXPECTED_FEATURES).length = MODEL_EXPECTED_FEATURES ∧
    preprocess_features v = Except.ok (align_list v MODEL_EXPECTED_FEATURES) ∧
    (v.length = MODEL_EXPECTED_FEATURES → align_list v MODEL_EXPECTED_FEATURES = v) ∧
    (MODEL_EXPECTED_FEATURES < v.length →
      align_list v MODEL_EXPECTED_FEATURES = v.take MODEL_EXPECTED_FEATURES) ∧
    (v.length < MODEL_EXPECTED_FEATURES →
      align_list v MODEL_EXPECTED_FEATURES
        = v ++ List.replicate (MODEL_EXPECTED_FEATURES - v.length) 0) :=
  ⟨align_list_length v _, preprocess_features_ok v,
   fun h => align_list_of_eq v _ h,
   fun h => align_list_of_gt v _ h,
   fun h => align_list_of_lt v _ h⟩

/-- C1 witness: the concrete padding case at `v = [1, 2, 3]`. -/
theorem claim_C1_witness :
    ([(1:ℚ), 2, 3] ≠ ([] : List ℚ)) ∧
    align_list [(1:ℚ), 2, 3] MODEL_EXPECTED_FEATURES
      = [(1:ℚ), 2, 3] ++ List.replicate (MODEL_EXPECTED_FEATURES - 3) 0 :=
  ⟨by decide, (claim_C1_align [1, 2, 3] (by decide)).2.2.2.2 (by decide)⟩

/-- C2 (amended): the code's top-feature selection takes the first `top_k`
of the reversed ascending argsort of the absolute attributions, so the
selected indices are distinct and ranked by weakly descending absolute
attribution value; no order among tied absolute values is guaranteed
(numpy's default argsort is not stable, and the claimed lower-index-first
tie-break is refuted by the counterexample).  On the documented tie-free
example `[0.1, -0.9, 0.3, 0.05, 0.2, 0.0]` with `top_k = 3` — where every
correct ascending argsort gives the same answer — the ranked indices are
`[1, 2, 4]` as claimed. -/
theorem claim_C2_ranking_amended (xs : List ℚ) (top_k : Nat) :
    rank_top_features xs top_k
      = ((argsort (xs.map (fun x => |x|))).reverse).take top_k ∧
    (rank_top_features xs top_k).length = min top_k xs.length ∧
    (rank_top_features xs top_k).Pairwise
      (fun i j => |xs.getD j 0| ≤ |xs.getD i 0|) ∧
    (rank_top_features xs top_k).Nodup ∧
    rank_top_features [mkRat 1 10, mkRat (-9) 10, mkRat 3 10, mkRat 1 20, mkRat 1 5, 0] 3
      = [1, 2, 4] := by
  refine ⟨rfl, rank_top_features_length xs top_k, ?_,
    rank_top_features_nodup xs top_k, by decide⟩
  refine (rank_top_features_pairwise xs top_k).imp fun {a b} hab => ?_
  have hab2 : |xs.getD b 0| < |xs.getD a 0|
      ∨ (|xs.getD b 0| = |xs.getD a 0| ∧ b ≤ a) := hab
  rcases hab2 with hlt | ⟨heq, _⟩
  · exact le_of_lt hlt
  · exact le_of_eq heq

/-- C2 counterexample: on the tied attribution vector `[1.0, 1.0]` the
code ranks index 1 before index 0, violating the claimed
lower-index-first tie-break.  At this array size numpy's default sort is
its stable insertion-sort fallback, so the model's output here is exactly
the program's: ascending argsort `[0, 1]`, reversed to `[1, 0]`. -/
theorem claim_C2_counterexample :
    rank_top_features [(1:ℚ), 1] 2 = [1, 0] ∧
    ¬ (rank_top_features [(1:ℚ), 1] 2).Pairwise (spec_rank_order [(1:ℚ), 1]) := by
  decide

/-- C3: with a model loaded, `POST /predict` with an empty features array
raises the intended `HTTPException(400)`, but the handler's broad
`except Exception` catches it and surfaces status 500 with the stringified
400 error inside the detail — for every model oracle, so no inference is
attempted.  Moreover `preprocess_features` itself does not fail on an
empty input: it pads it to 78 zeros. -/
theorem claim_C3_empty_features (m : ModelOracle) :
    predict_endpoint (some m) []
      = ApiResult.httpError 500 "Prediction failed: 400: Features array cannot be empty" ∧
    preprocess_features ([] : List ℚ)
      = Except.ok (List.replicate MODEL_EXPECTED_FEATURES 0) :=
  ⟨rfl, rfl⟩

/-- C4 counterexample: the `shap_values` field of the `/predict` payload is
*not* the attributions of the top features in their order: on a
6-attribution row it has 6 entries while `top_features` has 5, and it
differs from the per-top-feature attribution list. -/
theorem claim_C4_counterexample :
    ((predict_result [] 0 [1, 2, 3, 4, 5, 6]).shap_values).length
        ≠ ((predict_result [] 0 [1, 2, 3, 4, 5, 6]).top_features).length ∧
    (predict_result [] 0 [1, 2, 3, 4, 5, 6]).shap_values
      ≠ ((predict_result [] 0 [1, 2, 3, 4, 5, 6]).top_features).map
          (fun i => ([1, 2, 3, 4, 5, 6] : List ℚ).getD i 0) := by
  decide

/-- C4 (amended): `shap_values` carries the whole per-feature attribution
row in feature-index order; the top features are the 5-element ranking of
that row and each of their indices is a valid index into `shap_values`,
so the attribution of a top feature is recovered by indexing. -/
theorem claim_C4_shap_values_amended (features : List ℚ) (prediction : ℤ)
    (shap_row : List ℚ) :
    (predict_result features prediction shap_row).shap_values = shap_row ∧
    (predict_result features prediction shap_row).top_features
      = rank_top_features shap_row 5 ∧
    (predict_result features prediction shap_row).top_features.length
      = min 5 shap_row.length ∧
    (∀ i, i ∈ (predict_result features prediction shap_row).top_features →
      i < shap_row.length) :=
  ⟨rfl, rfl, rank_top_features_length shap_row 5,
   fun _ hi => mem_rank_top_features shap_row 5 hi⟩

/-- C4 witness: concrete instantiation at the attribution row `[1, 2]`,
discharging the membership hypothesis at top feature index 1. -/
theorem claim_C4_witness :
    (predict_result [] 0 [(1:ℚ), 2]).shap_values = [(1:ℚ), 2] ∧
    1 < ([(1:ℚ), 2]).length :=
  ⟨(claim_C4_shap_values_amended [] 0 [1, 2]).1,
   (claim_C4_shap_values_amended [] 0 [1, 2]).2.2.2 1 (by decide)⟩

/-- C5: with no model loaded, `/predict` and `/upload-csv` answer
`503 "ML model not available"` for every input — the check happens before
alignment, parsing or inference (the result does not depend on the
features, the file or any oracle) and is never converted into a 500. -/
theorem claim_C5_model_unavailable :
    (∀ features : List ℚ,
      predict_endpoint none features
        = ApiResult.httpError 503 "ML model not available") ∧
    (∀ (parse : String → Except String CsvData) (filename content : String),
      upload_csv_endpoint none parse filename content
        = ApiResult.httpError 503 "ML model not available") :=
  ⟨fun _ => rfl, fun _ _ _ => rfl⟩

/-- C6: the batch loop produces exactly one entry per parsed row, in input
order with 1-indexed row numbers; each entry depends only on its own row,
and a row whose pipeline fails with message `e` yields
`failure (i+1) ("Prediction failed: " ++ e)` while every other row is
still processed.  The closing conjuncts run the documented 3-row scenario
with a model that fails exactly on the middle row. -/
theorem claim_C6_batch (m : ModelOracle) (rows : List (List ℚ)) :
    (run_rows m rows).length = rows.length ∧
    (∀ i, i < rows.length →
      (run_rows m rows).getD i (RowResult.failure 0 "")
        = process_row m i (rows.getD i []) ∧
      ((run_rows m rows).getD i (RowResult.failure 0 "")).rowNum = i + 1) ∧
    (∀ i e, i < rows.length → row_pipeline m (rows.getD i []) = Except.error e →
      (run_rows m rows).getD i (RowResult.failure 0 "")
        = RowResult.failure (i + 1) ("Prediction failed: " ++ e)) ∧
    (run_rows demo_bad_row_oracle [[1], [2], [3]]).map RowResult.isFailure
      = [false, true, false] ∧
    (run_rows demo_bad_row_oracle [[1], [2], [3]]).map RowResult.rowNum
      = [1, 2, 3] := by
  have hget : ∀ i, i < rows.length →
      (run_rows m rows).getD i (RowResult.failure 0 "")
        = process_row m i (rows.getD i []) := by
    intro i hi
    have h := run_rows_from_getD m 0 rows i hi
    simpa [run_rows] using h
  refine ⟨run_rows_from_length m 0 rows, ?_, ?_, by decide, by decide⟩
  · intro i hi
    exact ⟨hget i hi, by rw [hget i hi, process_row_rowNum]⟩
  · intro i e hi hpipe
    rw [hget i hi, process_row_of_error m i _ e hpipe]

/-- C6 witness: concrete instantiation on a 2-row batch, discharging the
index-bound hypothesis at the second row. -/
theorem claim_C6_witness :
    ((run_rows demo_ok_oracle [[1], [2]]).getD 1 (RowResult.failure 0 "")).rowNum = 2 :=
  ((claim_C6_batch demo_ok_oracle [[1], [2]]).2.1 1 (by decide)).2

/-- C7: with a model loaded, a non-`.csv` filename and an unparsable file
both raise the intended `HTTPException(400)`, but the handler's broad
`except Exception` catches them and surfaces status 500 with the
stringified 400 error in the detail — for every model oracle, parser and
content, so the outcome is a whole-request server error, not the claimed
400 client error. -/
theorem claim_C7_csv_errors (m : ModelOracle) :
    (∀ (parse : String → Except String CsvData) (content : String),
      upload_csv_endpoint (some m) parse "data.txt" content
        = ApiResult.httpError 500
            "CSV processing failed: 400: File must be a CSV file") ∧
    (∀ (e content : String),
      upload_csv_endpoint (some m) (fun _ => Except.error e) "data.csv" content
        = ApiResult.httpError 500
            ("CSV processing failed: "
              ++ str_HTTPException 400 ("CSV processing error: " ++ e))) :=
  ⟨fun _ _ => rfl, fun _ _ => rfl⟩

/-- C8: `get_attack_info` is total on every integer class id: it resolves
a mapped id through the reverse mapping, falls back to
`"Unknown (<id>)"` on an unmapped id, flags `is_vulnerable` exactly for
nonzero ids, and echoes the id back. -/
theorem claim_C8_label_resolver (class_id : ℤ) :
    (∀ name, ATTACK_TYPES class_id = some name →
      (get_attack_info class_id).attack_type = name) ∧
    (ATTACK_TYPES class_id = none →
      (get_attack_info class_id).attack_type
        = "Unknown (" ++ toString class_id ++ ")") ∧
    ((get_attack_info class_id).is_vulnerable = true ↔ class_id ≠ 0) ∧
    (get_attack_info class_id).prediction_number = class_id := by
  refine ⟨?_, ?_, ?_, rfl⟩
  · intro name h
    simp [get_attack_info, h]
  · intro h
    simp [get_attack_info, h]
  · simp [get_attack_info]

/-- C8 witness: mapped id 1 resolves to "Bot", unmapped id 99 to
"Unknown (99)", and id 5 is flagged as an attack. -/
theorem claim_C8_witness :
    (get_attack_info 1).attack_type = "Bot" ∧
    (get_attack_info 99).attack_type = "Unknown (99)" ∧
    ((get_attack_info 5).is_vulnerable = true ↔ (5:ℤ) ≠ 0) :=
  ⟨(claim_C8_label_resolver 1).1 "Bot" (by decide),
   (claim_C8_label_resolver 99).2.1 (by decide),
   (claim_C8_label_resolver 5).2.2.1⟩

/-- C9: the dict-comprehension inversion of the label mapping is
last-write-wins: the inverse at `q` is the first match in the reversed
entry list, an entry appended at the end always wins, and on the
two-names-one-id example the later name is the one kept. -/
theorem claim_C9_last_write_wins :
    ATTACK_TYPES = dict_invert LABEL_MAPPING ∧
    (∀ (pairs : List (String × ℤ)) (q : ℤ),
      dict_invert pairs q
        = (pairs.reverse.find? (fun kv => kv.2 == q)).map Prod.fst) ∧
    (∀ (pairs : List (String × ℤ)) (q : ℤ) (name : String),
      dict_invert (pairs ++ [(name, q)]) q = some name) ∧
    dict_invert [("A", 7), ("B", 7)] 7 = some "B" := by
  refine ⟨rfl, dict_invert_eq_find, ?_, by decide⟩
  intro pairs q name
  rw [dict_invert_append_singleton, if_pos rfl]

/-- C10: the `Feature count mismatch` branch of `preprocess_features` is
unreachable: for every input list the truncation / zero-extension step
produces a list of length exactly `MODEL_EXPECTED_FEATURES`, so the
function always returns that list successfully. -/
theorem claim_C10_mismatch_unreachable (features : List ℚ) :
    preprocess_features features
      = Except.ok (align_list features MODEL_EXPECTED_FEATURES) ∧
    (align_list features MODEL_EXPECTED_FEATURES).length = MODEL_EXPECTED_FEATURES :=
  ⟨preprocess_features_ok features, align_list_length features _⟩

end IDSXAI
